import Mathlib

/-!
Shallow embedding of the blocktalk capability-IPC client
(`src/blocktalk/src/connection.rs`, `src/blocktalk/src/lib.rs`,
`src/src/lib.rs`).

Capabilities (capnp `Client` handles) are reference-counted remote
handles; we model each one by an opaque token (`Cap := Nat`), so that
`clone()` — a reference-count bump — is the identity on the token.
Async request/response round-trips are modelled by passing the peer's
responses explicitly: `Connection.connect` takes a node oracle mapping
each issued request to its response, and `Connection.disconnect` takes
the already-awaited results of the disconnector future and of the RPC
pump task's join handle.  Both functions also return the trace of
operations they performed, so that ordering and frame claims can be
stated.
-/

/-- A capnp-level RPC error (`capnp::Error`), carried opaquely. -/
inductive CapnpError where
  | failed : String → CapnpError
deriving DecidableEq, Repr

/-- An I/O error from establishing the unix stream (`std::io::Error`). -/
inductive IoError where
  | ioErr : String → IoError
deriving DecidableEq, Repr

/-- A tokio `JoinError`: the spawned RPC pump task panicked or was
cancelled. -/
inductive JoinError where
  | panicked : String → JoinError
  | cancelled : JoinError
deriving DecidableEq, Repr

/-- `JoinError::to_string()` as used in `Connection::disconnect`
(`.map_err(|e| BlockTalkError::NodeError(e.to_string()))`). -/
def JoinError.toMessage : JoinError → String
  | .panicked m => "task panicked: " ++ m
  | .cancelled => "task was cancelled"

/-- Modelled from the spec: the error taxonomy of `BlockTalkError`
(`error.rs` is not under `src/`; the spec gives the three kinds
`TransportError` — stream could not be opened, `ConnectionError` —
RPC-level failure, `NodeError` — node-reported failure message).  The
`ConnectionError` and `NodeError` constructors and their payload types
are also directly evidenced by their uses in
`src/blocktalk/src/connection.rs`; `TransportError` wrapping the
`std::io::Error` of `UnixStream::connect` via the `?` conversion is
taken from the spec. -/
inductive BlockTalkError where
  | ConnectionError : CapnpError → BlockTalkError
  | NodeError : String → BlockTalkError
  | TransportError : IoError → BlockTalkError
deriving DecidableEq, Repr

/-- Whether an error is the `ConnectionError` kind. -/
def BlockTalkError.isConnectionErrorKind : BlockTalkError → Bool
  | .ConnectionError _ => true
  | _ => false

/-- A capability handle: a reference-counted remote handle, modelled as
an opaque token.  Cloning a capnp client bumps a reference count and
yields a handle to the same remote object. -/
abbrev Cap := Nat

/-- `Client::clone()` on a capnp capability: a reference-count bump,
the underlying remote handle is shared, never deep-copied. -/
def Cap.clone (c : Cap) : Cap := c

/-- The bootstrap requests `Connection::connect` can issue over the
session, in the shape the code sends them (`connection.rs` lines
45–88): each carries the capability it is addressed to and, where the
code fills in a `Context`, the thread capability stored by
`context.set_thread(thread.clone())`. -/
inductive Request where
  | construct
  | makeThread (threadMap : Cap)
  | makeChain (ctxThread : Cap)
  | makeMining (ctxThread : Cap)
  | createNewBlock (mining : Cap) (useMempool : Bool) (blockReservedWeight : Nat)
deriving DecidableEq, Repr

/-- Whether a request is the mining-capability bootstrap request
(`init_interface.make_mining_request()`). -/
def Request.isMakeMining : Request → Bool
  | .makeMining _ => true
  | _ => false

/-- The `Connection` struct of `connection.rs` (lines 13–19).  The
`rpc_handle` and `disconnector` fields are the pump task's join handle
and the one-shot disconnect token; their awaited outcomes are passed to
`Connection.disconnect` explicitly, so only the three capability fields
are carried here. -/
structure Connection where
  thread : Cap
  chain_client : Cap
  block_template_client : Cap
deriving DecidableEq, Repr

/-- `Connection::connect(socket_path)` (`connection.rs` lines 23–99),
with the environment made explicit: `streamR` is the outcome of
`UnixStream::connect` (its `io::Error` surfaces through `?` as
`TransportError`), and `node` maps each issued request to the node's
response — `Ok` carrying the returned capability token (the
`response.get()?.get_result()?` chain), `Err` a capnp error from any of
the awaited promise or accessor steps, which `?` converts to
`ConnectionError`.  Returns the ordered trace of issued requests
together with the result; the code stops at the first failing step. -/
def Connection.connect (streamR : Except IoError Unit)
    (node : Request → Except CapnpError Cap) :
    List Request × Except BlockTalkError Connection :=
  match streamR with
  | .error io => ([], .error (.TransportError io))
  | .ok _ =>
    match node Request.construct with
    | .error e => ([Request.construct], .error (.ConnectionError e))
    | .ok threadMap =>
      match node (Request.makeThread threadMap) with
      | .error e =>
          ([Request.construct, Request.makeThread threadMap],
           .error (.ConnectionError e))
      | .ok thread =>
        match node (Request.makeChain (Cap.clone thread)) with
        | .error e =>
            ([Request.construct, Request.makeThread threadMap,
              Request.makeChain (Cap.clone thread)],
             .error (.ConnectionError e))
        | .ok chain_client =>
          match node (Request.makeMining (Cap.clone thread)) with
          | .error e =>
              ([Request.construct, Request.makeThread threadMap,
                Request.makeChain (Cap.clone thread),
                Request.makeMining (Cap.clone thread)],
               .error (.ConnectionError e))
          | .ok mining_client =>
            match node (Request.createNewBlock mining_client true 4000) with
            | .error e =>
                ([Request.construct, Request.makeThread threadMap,
                  Request.makeChain (Cap.clone thread),
                  Request.makeMining (Cap.clone thread),
                  Request.createNewBlock mining_client true 4000],
                 .error (.ConnectionError e))
            | .ok block_template_client =>
                ([Request.construct, Request.makeThread threadMap,
                  Request.makeChain (Cap.clone thread),
                  Request.makeMining (Cap.clone thread),
                  Request.createNewBlock mining_client true 4000],
                 .ok ⟨thread, chain_client, block_template_client⟩)

/-- The two awaits `Connection::disconnect` performs, in order. -/
inductive DiscEvent where
  | awaitDisconnector
  | awaitPump
deriving DecidableEq, Repr

/-- `Connection::disconnect(self)` (`connection.rs` lines 102–113),
with the awaited outcomes explicit: `discR` is the disconnector
future's result (`map_err(BlockTalkError::ConnectionError)?`), `joinR`
the pump task's join result — an outer `JoinError` mapped by
`map_err(|e| BlockTalkError::NodeError(e.to_string()))?`, the inner
pump-reported `capnp::Error` mapped by
`map_err(BlockTalkError::ConnectionError)?`.  Returns the trace of
awaits performed alongside the result. -/
def Connection.disconnect (discR : Except CapnpError Unit)
    (joinR : Except JoinError (Except CapnpError Unit)) :
    List DiscEvent × Except BlockTalkError Unit :=
  match discR with
  | .error e => ([DiscEvent.awaitDisconnector], .error (.ConnectionError e))
  | .ok _ =>
    match joinR with
    | .error je =>
        ([DiscEvent.awaitDisconnector, DiscEvent.awaitPump],
         .error (.NodeError je.toMessage))
    | .ok (.error e) =>
        ([DiscEvent.awaitDisconnector, DiscEvent.awaitPump],
         .error (.ConnectionError e))
    | .ok (.ok _) =>
        ([DiscEvent.awaitDisconnector, DiscEvent.awaitPump], .ok ())

/-- `Connection::chain_client(&self)` (`connection.rs` line 116):
returns the stored chain capability by shared reference. -/
def Connection.chainClientAcc (c : Connection) : Cap := c.chain_client

/-- `Connection::block_template_client(&self)` (`connection.rs` line
121): returns a clone (reference-count bump) of the stored
block-template capability. -/
def Connection.blockTemplateClientAcc (c : Connection) : Cap :=
  Cap.clone c.block_template_client

/-- `Connection::thread(&self)` (`connection.rs` line 126): returns the
stored thread capability by shared reference. -/
def Connection.threadAcc (c : Connection) : Cap := c.thread

/-- `BlockTalk::disconnect(self)` (`lib.rs` lines 72–77 / 42–51):
`Arc::try_unwrap(self.connection)` succeeds exactly when this call
holds the only remaining ownership stake (`strong = 1`), in which case
the inner `Connection::disconnect` runs; otherwise the `Err` branch
returns `Ok(())` at once, the `Arc` (and the `Connection` behind it)
survives unchanged, and no await is performed.  Returns the call's
result, the trace of transport awaits, and the surviving `Connection`
(`none` when it was consumed by teardown). -/
def BlockTalk.disconnect (strong : Nat) (conn : Connection)
    (discR : Except CapnpError Unit)
    (joinR : Except JoinError (Except CapnpError Unit)) :
    Except BlockTalkError Unit × List DiscEvent × Option Connection :=
  if strong = 1 then
    let r := Connection.disconnect discR joinR
    (r.2, r.1, none)
  else
    (.ok (), [], some conn)

/-- A sequence of `BlockTalk::disconnect` calls, one per listed stake
holder, against a connection whose `Arc` strong count starts at
`strong`; each call consumes one stake (the caller's `self`).  Returns
how many calls physically tore the transport down (took the
`Ok` branch of `try_unwrap` and ran `Connection::disconnect`). -/
def BlockTalk.disconnectAll (strong : Nat) (conn : Connection)
    (discR : Except CapnpError Unit)
    (joinR : Except JoinError (Except CapnpError Unit)) :
    List Nat → Nat
  | [] => 0
  | _ :: rest =>
    let r := BlockTalk.disconnect strong conn discR joinR
    match r.2.2 with
    | none => 1 + BlockTalk.disconnectAll 0 conn discR joinR rest
    | some c => BlockTalk.disconnectAll (strong - 1) c discR joinR rest

/-- `BlockTalk::init(socket_path)` (`lib.rs` lines 27–42), given the
outcome of `Connection::connect`.  On success the returned `BlockTalk`
holds one `Arc<Connection>` stake in `self.connection`, and the chain
facade built by `Blockchain::new(connection.clone())` holds a second
stake for as long as it is alive (the facade struct storing that clone
is `chain.rs`, not under `src/`; that it holds a ConnectionHandle stake
is the spec's facade contract, and the `connection.clone()` argument is
in `lib.rs` itself).  The mempool facade is built from capability
clones only, not an `Arc<Connection>` stake.  Returns the `BlockTalk`
value together with the `Arc<Connection>` strong count it leaves
behind. -/
def BlockTalk.init (connectR : Except BlockTalkError Connection) :
    Except BlockTalkError (Connection × Nat) :=
  match connectR with
  | .error e => .error e
  | .ok conn => .ok (conn, 2)

/-- Modelled from the spec: a chain notification event pushed by the
node (`notification.rs` is not under `src/`; the spec lists the closed
variant set — block connected, block disconnected, transaction added
to pool, chain tip updated — with minimal payload). -/
inductive ChainNotification where
  | blockConnected (hash height : Nat)
  | blockDisconnected (hash height : Nat)
  | transactionAddedToPool (txid : Nat)
  | chainTipUpdated (hash height : Nat)
deriving DecidableEq, Repr

/-- Modelled from the spec: the per-subscription dispatch state.  The
node issues events onto the single RPC pump in order (`pending` is the
FIFO of inbound callback calls not yet dispatched); the subsystem
invokes the handler synchronously with respect to each single inbound
call, so `observed` records what the handler has seen, in order. -/
structure Subscription where
  pending : List ChainNotification
  observed : List ChainNotification
deriving DecidableEq, Repr

/-- Modelled from the spec: one dispatch of the notification subsystem
— the pump delivers the oldest pending inbound callback call and the
handler observes it before the call completes. -/
def dispatchStep (s : Subscription) : Subscription :=
  match s.pending with
  | [] => s
  | e :: rest => { pending := rest, observed := s.observed ++ [e] }

/-- Modelled from the spec: run the dispatch loop for `n` inbound
calls. -/
def dispatchRun (s : Subscription) : Nat → Subscription
  | 0 => s
  | n + 1 => dispatchRun (dispatchStep s) n

/-! ## Theorems -/

/-- A concrete node oracle for witnesses: every bootstrap request
succeeds with a distinct capability token. -/
def demoNode : Request → Except CapnpError Cap
  | .construct => .ok 10
  | .makeThread _ => .ok 20
  | .makeChain _ => .ok 30
  | .makeMining _ => .ok 40
  | .createNewBlock _ _ _ => .ok 50

/-- Inversion of a successful `Connection.connect`: every step
succeeded, the stored thread is the one the thread map returned, both
context-carrying requests used it, and the trace is the fixed
five-request sequence. -/
theorem connect_ok_shape (streamR : Except IoError Unit)
    (node : Request → Except CapnpError Cap)
    (tr : List Request) (conn : Connection)
    (h : Connection.connect streamR node = (tr, .ok conn)) :
    ∃ tm m,
      node Request.construct = .ok tm ∧
      node (Request.makeThread tm) = .ok conn.thread ∧
      node (Request.makeChain conn.thread) = .ok conn.chain_client ∧
      node (Request.makeMining conn.thread) = .ok m ∧
      node (Request.createNewBlock m true 4000)
        = .ok conn.block_template_client ∧
      tr = [Request.construct, Request.makeThread tm,
            Request.makeChain conn.thread, Request.makeMining conn.thread,
            Request.createNewBlock m true 4000] := by
  unfold Connection.connect at h
  split at h
  · exact absurd (congrArg Prod.snd h) (by simp)
  split at h
  · exact absurd (congrArg Prod.snd h) (by simp)
  rename_i threadMap hc
  split at h
  · exact absurd (congrArg Prod.snd h) (by simp)
  rename_i thread ht
  split at h
  · exact absurd (congrArg Prod.snd h) (by simp)
  rename_i chainc hch
  split at h
  · exact absurd (congrArg Prod.snd h) (by simp)
  rename_i miningc hm
  split at h
  · exact absurd (congrArg Prod.snd h) (by simp)
  rename_i btc hb
  have hok := Except.ok.inj (congrArg Prod.snd h)
  have htr := congrArg Prod.fst h
  subst hok
  subst htr
  exact ⟨threadMap, miningc, hc, ht, hch, hm, hb, rfl⟩

/-- One unfolding of `BlockTalk.disconnectAll` when more than one stake
remains: the call takes the `Err` branch of `try_unwrap`, the stake
count drops by one and the connection survives. -/
theorem disconnectAll_cons_of_two_le (strong : Nat) (conn : Connection)
    (discR : Except CapnpError Unit)
    (joinR : Except JoinError (Except CapnpError Unit))
    (x : Nat) (rest : List Nat) (h : 2 ≤ strong) :
    BlockTalk.disconnectAll strong conn discR joinR (x :: rest)
      = BlockTalk.disconnectAll (strong - 1) conn discR joinR rest := by
  have hne : strong ≠ 1 := by omega
  rw [BlockTalk.disconnectAll]
  rw [BlockTalk.disconnect, if_neg hne]

/-- C1: for every number N of ownership stakes on one connection, if
each of the N stake holders calls `BlockTalk::disconnect` exactly once
— in any order, here the order given by the `holders` list — the
underlying transport is physically torn down
(`Connection::disconnect` performed) exactly once. -/
theorem disconnectAll_tears_down_exactly_once (conn : Connection)
    (discR : Except CapnpError Unit)
    (joinR : Except JoinError (Except CapnpError Unit))
    (holders : List Nat) (h : holders ≠ []) :
    BlockTalk.disconnectAll holders.length conn discR joinR holders = 1 := by
  induction holders with
  | nil => exact absurd rfl h
  | cons x xs ih =>
    cases xs with
    | nil =>
      rw [List.length_cons, List.length_nil, BlockTalk.disconnectAll]
      rw [BlockTalk.disconnect, if_pos rfl]
      rfl
    | cons y ys =>
      have h2 : 2 ≤ (x :: y :: ys).length := by simp
      rw [disconnectAll_cons_of_two_le _ conn discR joinR x (y :: ys) h2]
      have hlen : (x :: y :: ys).length - 1 = (y :: ys).length := rfl
      rw [hlen]
      exact ih (by simp)

/-- C1 witness: three stakes, three disconnect calls, one teardown. -/
theorem disconnectAll_tears_down_exactly_once_witness :
    BlockTalk.disconnectAll ([1, 2, 3] : List Nat).length
      (Connection.mk 0 0 0) (.ok ()) (.ok (.ok ())) [1, 2, 3] = 1 :=
  disconnectAll_tears_down_exactly_once (Connection.mk 0 0 0)
    (.ok ()) (.ok (.ok ())) [1, 2, 3] (by decide)

/-- C2 counterexample: when the pump task was cancelled (a pump-task
failure), `Connection::disconnect` returns `NodeError`, which is not
the `ConnectionError` kind — so not every observable failure is
returned as `ConnectionError`. -/
theorem disconnect_join_failure_is_node_error :
    (Connection.disconnect (.ok ()) (.error JoinError.cancelled)).2 =
      Except.error (BlockTalkError.NodeError ("task was cancelled")) ∧
    (BlockTalkError.NodeError ("task was cancelled")).isConnectionErrorKind
      = false :=
  ⟨rfl, rfl⟩

/-- C2 (amended): `Connection::disconnect` first awaits the
disconnector token and, when that succeeds, then awaits the pump
task's completion; a disconnector failure and a pump-reported protocol
error are returned as `ConnectionError`, but a pump-task failure
(panic/cancellation) is returned as `NodeError` carrying the join
error's message. -/
theorem disconnect_shutdown_order_and_errors
    (discR : Except CapnpError Unit)
    (joinR : Except JoinError (Except CapnpError Unit)) :
    (∀ e, discR = .error e →
       Connection.disconnect discR joinR =
         ([DiscEvent.awaitDisconnector],
          .error (BlockTalkError.ConnectionError e))) ∧
    (discR = .ok () →
       (Connection.disconnect discR joinR).1 =
         [DiscEvent.awaitDisconnector, DiscEvent.awaitPump] ∧
       (∀ je, joinR = .error je →
          (Connection.disconnect discR joinR).2 =
            .error (BlockTalkError.NodeError je.toMessage)) ∧
       (∀ e, joinR = .ok (.error e) →
          (Connection.disconnect discR joinR).2 =
            .error (BlockTalkError.ConnectionError e)) ∧
       (joinR = .ok (.ok ()) →
          (Connection.disconnect discR joinR).2 = .ok ())) := by
  constructor
  · rintro e rfl
    rfl
  · rintro rfl
    refine ⟨?_, ?_, ?_, ?_⟩
    · cases joinR with
      | error je => rfl
      | ok r =>
        cases r with
        | error e => rfl
        | ok u => rfl
    · rintro je rfl
      rfl
    · rintro e rfl
      rfl
    · rintro rfl
      rfl

/-- C2 (amended) witness: a panicked pump task surfaces as `NodeError`
with the join error's message, after both awaits. -/
theorem disconnect_shutdown_order_and_errors_witness :
    (Connection.disconnect (.ok ())
        (.error (JoinError.panicked ("boom")))).2
      = .error (BlockTalkError.NodeError
          (JoinError.panicked ("boom")).toMessage) :=
  ((disconnect_shutdown_order_and_errors (.ok ())
      (.error (JoinError.panicked ("boom")))).2 rfl).2.1
    (JoinError.panicked ("boom")) rfl

/-- C3: every successful `Connection::connect` obtains the thread
capability once from the thread map and supplies that same capability
as the thread context of the chain-capability request and of the
mining-capability request; the block-template capability is created
through the mining capability `m` obtained under that same context,
and that one thread handle is the one stored (shared) in the returned
connection. -/
theorem connect_single_thread_context (streamR : Except IoError Unit)
    (node : Request → Except CapnpError Cap)
    (tr : List Request) (conn : Connection)
    (h : Connection.connect streamR node = (tr, .ok conn)) :
    ∃ tm m,
      tr = [Request.construct, Request.makeThread tm,
            Request.makeChain conn.thread, Request.makeMining conn.thread,
            Request.createNewBlock m true 4000] ∧
      node (Request.makeThread tm) = .ok conn.thread ∧
      node (Request.makeMining conn.thread) = .ok m := by
  obtain ⟨tm, m, _, ht, _, hm, _, htr⟩ :=
    connect_ok_shape streamR node tr conn h
  exact ⟨tm, m, htr, ht, hm⟩

/-- C3 witness: the concrete oracle `demoNode` yields a successful
bootstrap whose chain and mining requests both carried thread token
20, the thread stored in the connection. -/
theorem connect_single_thread_context_witness :
    ∃ tm m,
      [Request.construct, Request.makeThread 10, Request.makeChain 20,
       Request.makeMining 20, Request.createNewBlock 40 true 4000] =
        [Request.construct, Request.makeThread tm,
         Request.makeChain (Connection.mk 20 30 50).thread,
         Request.makeMining (Connection.mk 20 30 50).thread,
         Request.createNewBlock m true 4000] ∧
      demoNode (Request.makeThread tm)
        = .ok (Connection.mk 20 30 50).thread ∧
      demoNode (Request.makeMining (Connection.mk 20 30 50).thread)
        = .ok m :=
  connect_single_thread_context (.ok ()) demoNode
    [Request.construct, Request.makeThread 10, Request.makeChain 20,
     Request.makeMining 20, Request.createNewBlock 40 true 4000]
    (Connection.mk 20 30 50) rfl

/-- C4: the bootstrap handshake of a successful `Connection::connect`
is the fixed sequence — root init construct, thread map's new thread,
chain capability with that context, mining capability with the same
context, then create-new-block on the mining capability with
use-mempool = true and reserved weight 4000 — and the flow issues
exactly one mining-capability bootstrap request. -/
theorem connect_fixed_sequence_one_mining (streamR : Except IoError Unit)
    (node : Request → Except CapnpError Cap)
    (tr : List Request) (conn : Connection)
    (h : Connection.connect streamR node = (tr, .ok conn)) :
    (∃ tm t m,
       tr = [Request.construct, Request.makeThread tm,
             Request.makeChain t, Request.makeMining t,
             Request.createNewBlock m true 4000]) ∧
    tr.countP Request.isMakeMining = 1 := by
  obtain ⟨tm, m, _, _, _, _, _, htr⟩ :=
    connect_ok_shape streamR node tr conn h
  subst htr
  refine ⟨⟨tm, conn.thread, m, rfl⟩, ?_⟩
  simp [List.countP_cons, Request.isMakeMining]

/-- C4 witness: the concrete successful bootstrap against `demoNode`
has the fixed five-request trace with one mining request. -/
theorem connect_fixed_sequence_one_mining_witness :
    (∃ tm t m,
       [Request.construct, Request.makeThread 10, Request.makeChain 20,
        Request.makeMining 20, Request.createNewBlock 40 true 4000] =
         [Request.construct, Request.makeThread tm,
          Request.makeChain t, Request.makeMining t,
          Request.createNewBlock m true 4000]) ∧
    ([Request.construct, Request.makeThread 10, Request.makeChain 20,
      Request.makeMining 20,
      Request.createNewBlock 40 true 4000].countP Request.isMakeMining)
      = 1 :=
  connect_fixed_sequence_one_mining (.ok ()) demoNode
    [Request.construct, Request.makeThread 10, Request.makeChain 20,
     Request.makeMining 20, Request.createNewBlock 40 true 4000]
    (Connection.mk 20 30 50) rfl

/-- C5: if any bootstrap step fails, `Connection::connect` aborts with
that step's error propagated unchanged — the io error of the stream
inside `TransportError`, or the failing request's capnp error inside
`ConnectionError`, the failing request being the last one issued — and
a `Connection` is returned only when every issued step succeeded, so
no partial capability set reaches the caller. -/
theorem connect_aborts_on_first_failure (streamR : Except IoError Unit)
    (node : Request → Except CapnpError Cap) (tr : List Request) :
    (∀ e, Connection.connect streamR node = (tr, .error e) →
       (∃ io, streamR = .error io ∧ e = .TransportError io ∧ tr = []) ∨
       (∃ r ce, tr.getLast? = some r ∧ node r = .error ce ∧
                e = .ConnectionError ce)) ∧
    (∀ conn, Connection.connect streamR node = (tr, .ok conn) →
       streamR = .ok () ∧ ∀ r ∈ tr, ∃ c, node r = .ok c) := by
  constructor
  · intro e h
    unfold Connection.connect at h
    split at h
    · rename_i io
      obtain rfl := (Except.error.inj (congrArg Prod.snd h)).symm
      exact Or.inl ⟨io, rfl, rfl, (congrArg Prod.fst h).symm⟩
    split at h
    · rename_i ce hq
      obtain rfl := (congrArg Prod.fst h)
      obtain rfl := (Except.error.inj (congrArg Prod.snd h)).symm
      exact Or.inr ⟨Request.construct, ce, rfl, hq, rfl⟩
    rename_i tm hq0
    split at h
    · rename_i ce hq
      obtain rfl := (congrArg Prod.fst h)
      obtain rfl := (Except.error.inj (congrArg Prod.snd h)).symm
      exact Or.inr ⟨Request.makeThread tm, ce, rfl, hq, rfl⟩
    rename_i t hq1
    split at h
    · rename_i ce hq
      obtain rfl := (congrArg Prod.fst h)
      obtain rfl := (Except.error.inj (congrArg Prod.snd h)).symm
      exact Or.inr ⟨Request.makeChain (Cap.clone t), ce, rfl, hq, rfl⟩
    rename_i cc hq2
    split at h
    · rename_i ce hq
      obtain rfl := (congrArg Prod.fst h)
      obtain rfl := (Except.error.inj (congrArg Prod.snd h)).symm
      exact Or.inr ⟨Request.makeMining (Cap.clone t), ce, rfl, hq, rfl⟩
    rename_i mc hq3
    split at h
    · rename_i ce hq
      obtain rfl := (congrArg Prod.fst h)
      obtain rfl := (Except.error.inj (congrArg Prod.snd h)).symm
      exact Or.inr ⟨Request.createNewBlock mc true 4000, ce, rfl, hq, rfl⟩
    exact absurd (congrArg Prod.snd h) (by simp)
  · intro conn h
    obtain ⟨tm, m, h1, h2, h3, h4, h5, htr⟩ :=
      connect_ok_shape streamR node tr conn h
    have hs : streamR = .ok () := by
      unfold Connection.connect at h
      split at h
      · exact absurd (congrArg Prod.snd h) (by simp)
      · rename_i u
        cases u
        rfl
    refine ⟨hs, ?_⟩
    subst htr
    intro r hr
    rcases hr with _ | ⟨_, hr⟩
    · exact ⟨tm, h1⟩
    rcases hr with _ | ⟨_, hr⟩
    · exact ⟨conn.thread, h2⟩
    rcases hr with _ | ⟨_, hr⟩
    · exact ⟨conn.chain_client, h3⟩
    rcases hr with _ | ⟨_, hr⟩
    · exact ⟨m, h4⟩
    rcases hr with _ | ⟨_, hr⟩
    · exact ⟨conn.block_template_client, h5⟩
    cases hr

/-- C5 witness: an unreachable endpoint aborts the bootstrap with the
io error propagated inside `TransportError` and an empty trace. -/
theorem connect_aborts_on_first_failure_witness :
    (∃ io, (Except.error (IoError.ioErr ("refused"))
              : Except IoError Unit) = .error io ∧
           BlockTalkError.TransportError (IoError.ioErr ("refused"))
             = .TransportError io ∧
           ([] : List Request) = []) ∨
    (∃ r ce, ([] : List Request).getLast? = some r ∧
             demoNode r = .error ce ∧
             BlockTalkError.TransportError (IoError.ioErr ("refused"))
               = .ConnectionError ce) :=
  (connect_aborts_on_first_failure
      (.error (IoError.ioErr ("refused"))) demoNode []).1
    (BlockTalkError.TransportError (IoError.ioErr ("refused"))) rfl

/-- C6: when other ownership stakes on the `Connection` remain
(`strong ≥ 2`), `BlockTalk::disconnect` returns `Ok` immediately
without touching the transport: no await of the disconnector or of the
pump task is performed (empty await trace), and the connection
survives unchanged. -/
theorem blocktalk_disconnect_frame (strong : Nat) (conn : Connection)
    (discR : Except CapnpError Unit)
    (joinR : Except JoinError (Except CapnpError Unit))
    (h : 2 ≤ strong) :
    BlockTalk.disconnect strong conn discR joinR
      = (.ok (), [], some conn) := by
  have hne : strong ≠ 1 := by omega
  rw [BlockTalk.disconnect, if_neg hne]

/-- C6 witness: with two stakes, a disconnect call is an immediate
`Ok` no-op that leaves the connection intact. -/
theorem blocktalk_disconnect_frame_witness :
    BlockTalk.disconnect 2 (Connection.mk 20 30 50)
      (.error (CapnpError.failed ("x"))) (.error JoinError.cancelled)
      = (.ok (), [], some (Connection.mk 20 30 50)) :=
  blocktalk_disconnect_frame 2 (Connection.mk 20 30 50)
    (.error (CapnpError.failed ("x"))) (.error JoinError.cancelled)
    (by decide)

/-- C7: a `BlockTalk` value built by `BlockTalk::init` leaves the
`Arc<Connection>` strong count at 2 (the handle's own stake plus the
chain facade's), so while the chain facade is alive
`Arc::try_unwrap(self.connection)` in `BlockTalk::disconnect` always
fails: the call takes the `Err` branch, returns `Ok(())`, and never
invokes `Connection::disconnect` — the transport is never physically
torn down through this path. -/
theorem init_disconnect_never_tears_down
    (connectR : Except BlockTalkError Connection)
    (conn : Connection) (n : Nat)
    (h : BlockTalk.init connectR = .ok (conn, n))
    (discR : Except CapnpError Unit)
    (joinR : Except JoinError (Except CapnpError Unit)) :
    2 ≤ n ∧
    BlockTalk.disconnect n conn discR joinR = (.ok (), [], some conn) := by
  have hn : n = 2 := by
    cases connectR with
    | error e => exact absurd h (by simp [BlockTalk.init])
    | ok c =>
      have := (Prod.mk.inj (Except.ok.inj h)).2
      omega
  subst hn
  exact ⟨le_refl 2, by rw [BlockTalk.disconnect, if_neg (by omega)]⟩

/-- C7 witness: after a successful init, disconnect is a no-op `Ok`
that leaves the connection alive. -/
theorem init_disconnect_never_tears_down_witness :
    2 ≤ 2 ∧
    BlockTalk.disconnect 2 (Connection.mk 20 30 50) (.ok ())
        (.ok (.ok ())) = (.ok (), [], some (Connection.mk 20 30 50)) :=
  init_disconnect_never_tears_down (.ok (Connection.mk 20 30 50))
    (Connection.mk 20 30 50) 2 rfl (.ok ()) (.ok (.ok ()))

/-- C8: once a `Connection` exists, the accessors `chain_client()`,
`block_template_client()` and `thread()` are total — they return a
value, not a fallible result — and each returns exactly the stored
capability handle: by shared reference, or (for the block-template
client) by `clone()`, a reference-count bump on the same underlying
remote handle, never a deep copy. -/
theorem connection_accessors_total_and_shared (c : Connection) :
    Connection.chainClientAcc c = c.chain_client ∧
    Connection.blockTemplateClientAcc c = c.block_template_client ∧
    Connection.threadAcc c = c.thread ∧
    Connection.blockTemplateClientAcc c
      = Cap.clone c.block_template_client :=
  ⟨rfl, rfl, rfl, rfl⟩

/-- C9: when the unix-socket byte stream cannot be established, the io
error surfaces from `Connection::connect` as `TransportError` — and as
no other error kind — with no bootstrap request issued. -/
theorem connect_stream_failure_is_transport_error (io : IoError)
    (node : Request → Except CapnpError Cap) :
    Connection.connect (.error io) node
      = ([], .error (.TransportError io)) ∧
    (BlockTalkError.TransportError io).isConnectionErrorKind = false :=
  ⟨rfl, rfl⟩

/-- Completing the dispatch loop empties the pending FIFO into the
observed sequence, preserving order. -/
theorem dispatchRun_drains (pending obs : List ChainNotification) :
    dispatchRun ⟨pending, obs⟩ pending.length = ⟨[], obs ++ pending⟩ := by
  induction pending generalizing obs with
  | nil => simp [dispatchRun]
  | cons e rest ih =>
    rw [List.length_cons, dispatchRun]
    have hstep : dispatchStep ⟨e :: rest, obs⟩ = ⟨rest, obs ++ [e]⟩ := rfl
    rw [hstep, ih (obs ++ [e])]
    simp

/-- C10: per-subscription notification delivery preserves the node's
issue order — for every sequence of events the node issues, the
handler observes exactly that sequence in that order. -/
theorem dispatch_preserves_issue_order (events : List ChainNotification) :
    (dispatchRun ⟨events, []⟩ events.length).observed = events := by
  rw [dispatchRun_drains events []]
  simp
